import Mathlib

/-!
Verification of the Matomo Home Assistant integration
(custom_components/matomo): a shallow embedding in Lean 4 of the
reporting-API client (api.py), the refresh pipeline
(coordinator.py: MatomoDataCoordinator._async_update_data) and the
sensor value extractors (sensor.py), together with theorems settling
the frozen specification claims.

Modelling conventions:
- Decoded JSON values are the inductive Json below; JSON numbers are
  modelled exactly as rationals (Python json decodes to int/float).
- Python dicts are modelled extensionally as association lists where a
  LATER binding shadows an earlier one: lookup (alget) scans the tail
  first, so d.update(e) is modelled by list append d ++ e, and a JSON
  object with duplicate keys behaves like Python json.loads
  (last occurrence wins).
- Exceptions are modelled by Except / Option result types.  The code
  has exactly two exception classes, MatomoAPIError and its subclass
  MatomoAuthError; the inductive MatomoError mirrors them with the
  constructors api and auth.  A Python handler for MatomoAPIError
  catches both constructors; a handler for MatomoAuthError catches
  only auth.
-/

/-- Decoded JSON value (the result of Python json.loads). -/
inductive Json where
  | null : Json
  | bool : Bool → Json
  | num : Rat → Json
  | str : String → Json
  | arr : List Json → Json
  | obj : List (String × Json) → Json

/-- A Python dict with string keys holding JSON values, extensionally:
later bindings shadow earlier ones. -/
abbrev Dict := List (String × Json)

/-- A Python dict with string keys holding int values (the totals dict
of get_all_sites_summary). -/
abbrev Totals := List (String × Int)

/-- Lookup in an association list modelling a Python dict: the LAST
binding for a key wins (so dict.update is list append). -/
def alget {α : Type} : List (String × α) → String → Option α
  | [], _ => none
  | (k', v) :: t, k =>
    match alget t k with
    | some r => some r
    | none => if k' = k then some v else none

/-- Option alternative: first result if present, else the second. -/
def oOr {α : Type} : Option α → Option α → Option α
  | some v, _ => some v
  | none, b => b

theorem alget_append {α : Type} (l l' : List (String × α)) (k : String) :
    alget (l ++ l') k = oOr (alget l' k) (alget l k) := by
  induction l with
  | nil =>
    cases h : alget l' k <;> simp [alget, oOr, h]
  | cons kv t ih =>
    cases kv with
    | mk k' v =>
      simp only [List.cons_append, alget, List.append_eq]
      rw [ih]
      cases h : alget l' k <;> cases h' : alget t k <;> simp [oOr]

/-- Truncation of a rational toward zero: the model of Python
int(x) for a numeric x (int() truncates, it does not round). -/
def ratTrunc (q : Rat) : Int :=
  if 0 ≤ q.num then ((q.num.toNat / q.den : Nat) : Int)
  else -(((-q.num).toNat / q.den : Nat) : Int)

/-- Model of Python int(s) on a string: optional surrounding ASCII
whitespace, an optional sign, then a nonempty run of decimal digits.
(Underscore digit separators, accepted by Python 3.6+, are not
modelled; no claim depends on them.) -/
def digitsVal : List Char → Option Nat
  | [] => none
  | [c] => if c.isDigit then some (c.toNat - 48) else none
  | c :: rest =>
    if c.isDigit then
      match digitsVal rest with
      | some n =>
        -- value accumulates most-significant-first
        some ((c.toNat - 48) * 10 ^ rest.length + n)
      | none => none
    else none

def parseIntPy (s : String) : Option Int :=
  let l := (s.toList.dropWhile Char.isWhitespace).reverse.dropWhile Char.isWhitespace |>.reverse
  match l with
  | '+' :: rest => (digitsVal rest).map Int.ofNat
  | '-' :: rest => (digitsVal rest).map (fun n => -(n : Int))
  | _ => (digitsVal l).map Int.ofNat

/-- Model of Python int(val) applied to a decoded JSON value: some n
when the coercion succeeds, none when int() raises (TypeError or
ValueError).  Python bool is a subclass of int, so booleans coerce. -/
def pyInt : Json → Option Int
  | .num q => some (ratTrunc q)
  | .bool b => some (if b then 1 else 0)
  | .str s => parseIntPy s
  | _ => none

/-! ## The error model (api.py lines 13-18)

The source defines class MatomoAPIError(Exception) and
class MatomoAuthError(MatomoAPIError).  These are the only two
exception classes of the client; MatomoError.api models a plain
MatomoAPIError and MatomoError.auth a MatomoAuthError, each carrying
the exception message. -/
inductive MatomoError where
  | api : String → MatomoError
  | auth : String → MatomoError
deriving DecidableEq

/-- True exactly for the MatomoAuthError subclass. -/
def MatomoError.isAuth : MatomoError → Bool
  | .auth _ => true
  | .api _ => false

/-! ## Request classification (api.py MatomoAPI._request) -/

/-- The text body of an HTTP response, abstracted by how _request's
checks see it: an HTML page (trimmed text starting with an HTML or
doctype marker), a non-JSON body (json.loads fails; the constructor
carries the first ~200 characters used in the error message), or a
successfully decoded JSON value. -/
inductive Body where
  | html : Body
  | notJson : String → Body
  | json : Json → Body

/-- Outcome of the underlying aiohttp POST: an aiohttp.ClientError
(connection-level failure, carrying the text the exception formats
to), expiry of the 30-second total timeout — which raises
asyncio.TimeoutError, NOT an aiohttp.ClientError, so api.py's
except aiohttp.ClientError at line 92 does not catch it (the
config flow at config_flow.py line 65 catches TimeoutError
separately for exactly this reason) — or an HTTP response with a
status code and a body. -/
inductive HttpOutcome where
  | clientError : String → HttpOutcome
  | timeout : HttpOutcome
  | response : Nat → Body → HttpOutcome

/-- Outcome of MatomoAPI._request: a decoded JSON value, a raised
MatomoAPIError / MatomoAuthError, or a non-Matomo Python exception
escaping _request unwrapped (pyexn).  The pyexn path occurs when the
total timeout expires (asyncio.TimeoutError, caught by no handler in
api.py) and when an error payload carries a non-string "message"
value, making msg.lower() raise AttributeError. -/
inductive ReqOutcome where
  | ok : Json → ReqOutcome
  | fail : MatomoError → ReqOutcome
  | pyexn : String → ReqOutcome

/-- api.py line 98: classification of an application-level error
message — AuthError when msg.lower() contains "token", "auth" or
"access", else plain MatomoAPIError.  hasSub models Python's
substring test (sub in s) on lists of characters. -/
def hasSub (sub : List Char) : List Char → Bool
  | [] => sub.isEmpty
  | c :: t => sub.isPrefixOf (c :: t) || hasSub sub t

/-- msg.lower() modelled character-wise (Char.toLower agrees with
Python str.lower on the ASCII range in use here). -/
def containsLower (msg pat : String) : Bool :=
  hasSub pat.toList (msg.toList.map Char.toLower)

def classifyApiError (msg : String) : MatomoError :=
  if containsLower msg "token" || containsLower msg "auth"
      || containsLower msg "access" then
    .auth msg
  else
    .api msg

/-- The message of the MatomoAPIError wrapping an
aiohttp.ClientError raised by resp.raise_for_status() on a non-2xx
status.  aiohttp composes the inner text; only the wrapping prefix
"Error communicating with Matomo: " is fixed by api.py line 93, so
the inner part is modelled as the status number. -/
def statusErrText (status : Nat) : String :=
  "Error communicating with Matomo: HTTP " ++ toString status

/-- MatomoAPI._request (api.py lines 43-102), given the outcome of
the HTTP POST.  Order of checks, as in the source: a raised
aiohttp.ClientError is wrapped as MatomoAPIError; an expired total
timeout raises asyncio.TimeoutError, which matches neither except
clause of _request and escapes unwrapped; on a response, status 401
raises MatomoAuthError before the body is read; raise_for_status()
on any other status >= 400 raises aiohttp.ClientResponseError,
wrapped as MatomoAPIError; an HTML body raises MatomoAPIError; a
JSON decode failure raises MatomoAPIError; a decoded mapping whose
"result" field equals "error" is classified by its "message" field
(absent message uses the default text; a non-string message makes
msg.lower() raise AttributeError, also escaping unwrapped). -/
def requestOutcome (o : HttpOutcome) : ReqOutcome :=
  match o with
  | .clientError m =>
    .fail (.api ("Error communicating with Matomo: " ++ m))
  | .timeout => .pyexn "asyncio.TimeoutError"
  | .response status body =>
    if status = 401 then
      .fail (.auth "Invalid authentication token (HTTP 401)")
    else if 400 ≤ status then
      .fail (.api (statusErrText status))
    else
      match body with
      | .html =>
        .fail (.api "Matomo returned HTML instead of JSON. Check if URL is correct")
      | .notJson snippet =>
        .fail (.api ("Invalid JSON response from Matomo: " ++ snippet))
      | .json v =>
        match v with
        | .obj fields =>
          match alget fields "result" with
          | some (.str r) =>
            if r = "error" then
              match alget fields "message" with
              | some (.str m) => .fail (classifyApiError m)
              | none => .fail (classifyApiError "Unknown Matomo API error")
              | some _ => .pyexn "AttributeError: lower"
            else .ok v
          | _ => .ok v
        | _ => .ok v

/-! ## Summary calls and cross-site aggregation (api.py lines 120-167) -/

/-- The per-cycle environment: the decoded-or-failed results the
underlying _request calls would produce during one refresh cycle, one
field per distinct call the coordinator makes.  visitSummary and
actions are indexed by the period parameter (the tracked site id and
date are fixed within a cycle); allVisits and allActions are the
wildcard idSite=all calls of get_all_sites_summary. -/
structure Env where
  visitSummary : String → Except MatomoError Json
  actions : String → Except MatomoError Json
  liveCounters : Except MatomoError Json
  allVisits : String → Except MatomoError Json
  allActions : String → Except MatomoError Json

/-- api.py lines 127-128 and 138-139: an empty-sequence result is
normalized to an empty mapping; anything else passes through. -/
def normalizeSummary : Json → Json
  | .arr [] => .obj []
  | v => v

/-- MatomoAPI.get_visit_summary for the tracked site and a period. -/
def get_visit_summary (env : Env) (period : String) : Except MatomoError Json :=
  match env.visitSummary period with
  | .error e => .error e
  | .ok r => .ok (normalizeSummary r)

/-- MatomoAPI.get_actions for the tracked site and a period. -/
def get_actions (env : Env) (period : String) : Except MatomoError Json :=
  match env.actions period with
  | .error e => .error e
  | .ok r => .ok (normalizeSummary r)

/-- One numeric contribution in the totals loop of
get_all_sites_summary: isinstance(value, (int, float)) admits ints,
floats and bools (Python bool is an int subclass), and int(value)
truncates; any other value is skipped. -/
def numContrib : Json → Option Int
  | .num q => some (ratTrunc q)
  | .bool b => some (if b then 1 else 0)
  | _ => none

/-- totals[key] = totals.get(key, 0) + c, extensionally (the appended
binding shadows any earlier one). -/
def tvalD (t : Totals) (k : String) : Int :=
  (alget t k).getD 0

def bump (t : Totals) (k : String) (c : Int) : Totals :=
  t ++ [(k, tvalD t k + c)]

/-- The inner loop of get_all_sites_summary over one per-site
sub-mapping's items: for key, value in site_data.items(). -/
def addFields (t : Totals) : List (String × Json) → Totals
  | [] => t
  | kv :: rest =>
    match numContrib kv.2 with
    | some c => addFields (bump t kv.1 c) rest
    | none => addFields t rest

/-- The fields of a JSON object; any non-mapping is skipped by the
isinstance checks of get_all_sites_summary. -/
def objFields : Json → List (String × Json)
  | .obj f => f
  | _ => []

/-- The outer loop of get_all_sites_summary over one method's
response items: for _site_id, site_data in result.items(), skipping
non-mapping site_data via objFields. -/
def sumSites (t : Totals) : List (String × Json) → Totals
  | [] => t
  | kv :: rest => sumSites (addFields t (objFields kv.2)) rest

def sumSitesInto (t : Totals) (result : Json) : Totals :=
  sumSites t (objFields result)

/-- The totals computed from the two wildcard responses, in call
order (VisitsSummary.get then Actions.get). -/
def computeTotals (rv ra : Json) : Totals :=
  sumSitesInto (sumSitesInto [] rv) ra

/-- MatomoAPI.get_all_sites_summary (api.py lines 150-167) for one
period: the two wildcard _request calls run sequentially, either
error propagates, and the totals accumulate over both responses. -/
def get_all_sites_summary (env : Env) (period : String) :
    Except MatomoError Totals :=
  match env.allVisits period with
  | .error e => .error e
  | .ok rv =>
    match env.allActions period with
    | .error e => .error e
    | .ok ra => .ok (computeTotals rv ra)

/-! ## The refresh pipeline (coordinator.py MatomoDataCoordinator) -/

/-- The dict built by _async_update_data (coordinator.py line 43):
data = {"site": {}, "live": {}, "aggregate": {}}.  site maps the
period name to the merged per-period mapping; live holds whatever
live_result[0] was (a JSON value, an empty mapping when missing or
failed); aggregate maps the period name to the totals dict. -/
structure Snapshot where
  site : List (String × Dict)
  live : Json
  aggregate : List (String × Totals)

/-- coordinator.py lines 49-54: merged = {}; update with the summary
if it is a dict, then with the actions result if it is a dict.  With
the extensional dict model, update is append (later bindings win) and
a non-dict response contributes nothing. -/
def mergedFor (summary actions : Json) : Dict :=
  objFields summary ++ objFields actions

/-- coordinator.py lines 57-65: the live fetch runs inside
try/except MatomoAPIError, which catches both error classes; on
success, a non-empty list yields its first element and anything else
the empty mapping. -/
def liveOf : Except MatomoError Json → Json
  | .ok (.arr (x :: _)) => x
  | .ok _ => .obj []
  | .error _ => .obj []

/-- coordinator.py lines 70-72: the three sequential
get_all_sites_summary calls; the first error aborts the loop. -/
def aggFetch (env : Env) : Except MatomoError (List (String × Totals)) :=
  match get_all_sites_summary env "day" with
  | .error e => .error e
  | .ok td =>
    match get_all_sites_summary env "week" with
    | .error e => .error e
    | .ok tw =>
      match get_all_sites_summary env "month" with
      | .error e => .error e
      | .ok tm => .ok [("day", td), ("week", tw), ("month", tm)]

/-- coordinator.py lines 68-75: when include_aggregate is set, the
loop fills data["aggregate"] per period, but the except MatomoAPIError
handler assigns data["aggregate"] = {} — wiping any periods already
filled — so the partition is all-or-nothing. -/
def aggOf (includeAggregate : Bool) (env : Env) : List (String × Totals) :=
  if includeAggregate then
    match aggFetch env with
    | .ok l => l
    | .error _ => []
  else []

/-- The body of the outer try of _async_update_data (coordinator.py
lines 42-77): the fixed loop over ("day", "week", "month") unrolled
in call order; a MatomoAPIError from any of the six summary fetches
propagates out (there is no inner handler on this path), while the
live and aggregate fetches handle their own failures. -/
def runCycle (env : Env) (includeAggregate : Bool) :
    Except MatomoError Snapshot :=
  match get_visit_summary env "day" with
  | .error e => .error e
  | .ok vd =>
    match get_actions env "day" with
    | .error e => .error e
    | .ok ad =>
      match get_visit_summary env "week" with
      | .error e => .error e
      | .ok vw =>
        match get_actions env "week" with
        | .error e => .error e
        | .ok aw =>
          match get_visit_summary env "month" with
          | .error e => .error e
          | .ok vm =>
            match get_actions env "month" with
            | .error e => .error e
            | .ok am =>
              .ok { site := [("day", mergedFor vd ad),
                             ("week", mergedFor vw aw),
                             ("month", mergedFor vm am)],
                    live := liveOf env.liveCounters,
                    aggregate := aggOf includeAggregate env }

/-- The UpdateFailed exception raised to the host coordinator
framework, carrying the formatted message and the original error as
cause (raise UpdateFailed(...) from err). -/
structure UpdateFailed where
  message : String
  cause : MatomoError
deriving DecidableEq

/-- coordinator.py lines 79-82: except MatomoAuthError first (the
subclass), then except MatomoAPIError; str(err) is the exception
message. -/
def wrapFail : MatomoError → UpdateFailed
  | .auth m => ⟨"Authentication failed: " ++ m, .auth m⟩
  | .api m => ⟨"Error fetching Matomo data: " ++ m, .api m⟩

/-- MatomoDataCoordinator._async_update_data: either the fully built
snapshot, or UpdateFailed wrapping the propagated error. -/
def updateData (env : Env) (includeAggregate : Bool) :
    Except UpdateFailed Snapshot :=
  match runCycle env includeAggregate with
  | .ok s => .ok s
  | .error e => .error (wrapFail e)

/-- The six load-bearing per-period _request results, in the order
the coordinator performs the calls. -/
def siteCalls (env : Env) : List (Except MatomoError Json) :=
  [env.visitSummary "day", env.actions "day",
   env.visitSummary "week", env.actions "week",
   env.visitSummary "month", env.actions "month"]

/-- The first error in a sequential call list: the exception the
running code would actually raise (calls after it never execute). -/
def firstError : List (Except MatomoError Json) → Option MatomoError
  | [] => none
  | .error e :: _ => some e
  | .ok _ :: t => firstError t

/-! ## Sensor value extractors (sensor.py lines 31-58) -/

/-- sensor.py _site_value: data.get("site", {}).get(period, {})
.get(key), then int(val) if val is not None else None.  The outer
Option is the exception layer: none models the int() call raising
(ValueError / TypeError on a non-coercible value); some none models
the Python None return ("absent"); some (some n) a produced value.
A JSON null at the path is Python None, hence absent. -/
def siteValue (period key : String) (d : Snapshot) : Option (Option Int) :=
  match alget ((alget d.site period).getD []) key with
  | none => some none
  | some .null => some none
  | some v =>
    match pyInt v with
    | some n => some (some n)
    | none => none

/-- sensor.py _live_value: data.get("live", {}).get(key).  When the
live partition is not a mapping (live_result[0] was some other JSON
value), .get raises AttributeError: modelled as none. -/
def liveValue (key : String) (d : Snapshot) : Option (Option Int) :=
  match d.live with
  | .obj fields =>
    match alget fields key with
    | none => some none
    | some .null => some none
    | some v =>
      match pyInt v with
      | some n => some (some n)
      | none => none
  | _ => none

/-- sensor.py _aggregate_value: data.get("aggregate", {})
.get(period, {}).get(key), then int(val).  Totals values are Python
ints, so the int() coercion is the identity and cannot raise. -/
def aggValue (period key : String) (d : Snapshot) : Option (Option Int) :=
  match alget ((alget d.aggregate period).getD []) key with
  | none => some none
  | some n => some (some n)

/-! ## Helper lemmas for the aggregation sum -/

theorem tvalD_nil (k : String) : tvalD [] k = 0 := rfl

theorem tvalD_bump (t : Totals) (k0 k : String) (c : Int) :
    tvalD (bump t k0 c) k = tvalD t k + (if k0 = k then c else 0) := by
  unfold bump tvalD
  rw [alget_append]
  by_cases h : k0 = k
  · subst h
    simp [alget, oOr]
  · simp [alget, h, oOr]

/-- Sum of the numeric contributions of one sub-mapping's entries at
one key (non-numeric values contribute nothing). -/
def numKeySum : List (String × Json) → String → Int
  | [], _ => 0
  | kv :: rest, k =>
    (if kv.1 = k then (numContrib kv.2).getD 0 else 0) + numKeySum rest k

theorem addFields_tvalD (fields : List (String × Json)) (t : Totals) (k : String) :
    tvalD (addFields t fields) k = tvalD t k + numKeySum fields k := by
  induction fields generalizing t with
  | nil => simp [addFields, numKeySum]
  | cons kv rest ih =>
    simp only [addFields, numKeySum]
    cases h : numContrib kv.2 with
    | none =>
      simp only [h, Option.getD_none, ih, ite_self]
      ring
    | some c =>
      simp only [h, Option.getD_some, ih, tvalD_bump]
      by_cases hk : kv.1 = k
      · simp [hk]
        ring
      · simp [hk]

/-- Sum of numeric contributions at one key over a list of per-site
sub-mappings. -/
def sitesKeySum : List (String × Json) → String → Int
  | [], _ => 0
  | kv :: rest, k => numKeySum (objFields kv.2) k + sitesKeySum rest k

theorem sumSites_tvalD (sites : List (String × Json)) (t : Totals) (k : String) :
    tvalD (sumSites t sites) k = tvalD t k + sitesKeySum sites k := by
  induction sites generalizing t with
  | nil => simp [sumSites, sitesKeySum]
  | cons kv rest ih =>
    simp only [sumSites, sitesKeySum, ih, addFields_tvalD]
    ring

/-- Sum of numeric contributions at one key over every per-site
sub-mapping of one wildcard response. -/
def aggKeySum (r : Json) (k : String) : Int :=
  sitesKeySum (objFields r) k

theorem computeTotals_tvalD (rv ra : Json) (k : String) :
    tvalD (computeTotals rv ra) k = aggKeySum rv k + aggKeySum ra k := by
  unfold computeTotals sumSitesInto aggKeySum
  rw [sumSites_tvalD, sumSites_tvalD, tvalD_nil]
  ring

/-! ## Claim theorems -/

/-- C4: for every period, the mapping stored in site[period] is the
merge of the visit-summary and actions-summary responses in which,
for a key defined by both, the actions-summary value wins (it is
applied by the second dict.update), and a key defined by only one
response keeps its single value: the lookup in the merged mapping is
the actions-summary lookup, falling back to the visit-summary
lookup. -/
theorem matomo_c4_merge_actions_summary_wins (s a : Dict) (k : String) :
    alget (mergedFor (.obj s) (.obj a)) k = oOr (alget a k) (alget s k) := by
  unfold mergedFor objFields
  exact alget_append s a k

/-- C8: a visit-summary or actions-summary call whose underlying API
response decodes to the empty sequence returns the empty mapping —
an ok result carrying Json.obj [] (not an error, not a sequence) —
so the value merged into the site partition for that period is a
mapping. -/
theorem matomo_c8_empty_sequence_normalized (env : Env) (p : String)
    (h1 : env.visitSummary p = .ok (.arr []))
    (h2 : env.actions p = .ok (.arr [])) :
    get_visit_summary env p = .ok (.obj []) ∧
      get_actions env p = .ok (.obj []) := by
  unfold get_visit_summary get_actions
  rw [h1, h2]
  exact ⟨rfl, rfl⟩

def envC8 : Env :=
  { visitSummary := fun _ => .ok (.arr [])
    actions := fun _ => .ok (.arr [])
    liveCounters := .ok (.arr [])
    allVisits := fun _ => .ok (.obj [])
    allActions := fun _ => .ok (.obj []) }

theorem matomo_c8_empty_sequence_normalized_witness :
    get_visit_summary envC8 "day" = .ok (.obj []) ∧
      get_actions envC8 "day" = .ok (.obj []) :=
  matomo_c8_empty_sequence_normalized envC8 "day" rfl rfl

/-- The example per-site wildcard response of the claim about
cross-site aggregation: two sites reporting nb_visits 3 and 5. -/
def exSites : Json :=
  .obj [("1", .obj [("nb_visits", .num 3)]),
        ("2", .obj [("nb_visits", .num 5)])]

/-- C5 counterexample: when the per-site sub-mappings of the claim's
example appear in BOTH wildcard responses, get_all_sites_summary sums
them twice — the loop accumulates over both method responses — so
nb_visits is 16, not the claimed 8. -/
theorem matomo_c5_both_responses_counterexample :
    get_all_sites_summary
        { visitSummary := fun _ => .ok (.obj [])
          actions := fun _ => .ok (.obj [])
          liveCounters := .ok (.arr [])
          allVisits := fun _ => .ok exSites
          allActions := fun _ => .ok exSites } "day"
      = .ok (computeTotals exSites exSites)
    ∧ alget (computeTotals exSites exSites) "nb_visits" = some 16
    ∧ (16 : Int) ≠ 8 :=
  ⟨rfl, by decide, by decide⟩

/-- C5 as amended: the cross-site aggregate for a period maps each
metric key to the integer sum of that key's numeric contributions
across all per-site sub-mappings of both wildcard responses
(non-numeric values ignored, each numeric value truncated by int());
consequently the example sub-mappings yield nb_visits = 8 when they
appear in exactly one of the two responses, and 16 when they appear
in both. -/
theorem matomo_c5_aggregate_summation (env : Env) (p : String) (rv ra : Json)
    (h1 : env.allVisits p = .ok rv) (h2 : env.allActions p = .ok ra) :
    (get_all_sites_summary env p = .ok (computeTotals rv ra)
      ∧ ∀ k, tvalD (computeTotals rv ra) k = aggKeySum rv k + aggKeySum ra k)
    ∧ alget (computeTotals exSites (.obj [])) "nb_visits" = some 8
    ∧ alget (computeTotals exSites exSites) "nb_visits" = some 16 := by
  refine ⟨⟨?_, fun k => computeTotals_tvalD rv ra k⟩, by decide, by decide⟩
  unfold get_all_sites_summary
  rw [h1, h2]

def envC5 : Env :=
  { visitSummary := fun _ => .ok (.obj [])
    actions := fun _ => .ok (.obj [])
    liveCounters := .ok (.arr [])
    allVisits := fun _ => .ok exSites
    allActions := fun _ => .ok (.obj []) }

theorem matomo_c5_aggregate_summation_witness :
    get_all_sites_summary envC5 "day" = .ok (computeTotals exSites (.obj []))
    ∧ tvalD (computeTotals exSites (.obj [])) "nb_visits" =
        aggKeySum exSites "nb_visits" + aggKeySum (.obj []) "nb_visits"
    ∧ alget (computeTotals exSites (.obj [])) "nb_visits" = some 8 :=
  ⟨(matomo_c5_aggregate_summation envC5 "day" exSites (.obj []) rfl rfl).1.1,
   (matomo_c5_aggregate_summation envC5 "day" exSites (.obj []) rfl rfl).1.2 "nb_visits",
   (matomo_c5_aggregate_summation envC5 "day" exSites (.obj []) rfl rfl).2.1⟩

/-- C7: a successfully decoded payload that is a mapping with result
= "error" and a server-supplied (string) message m makes _request
raise MatomoAuthError m exactly when m.lower() contains "token",
"auth" or "access", and plain MatomoAPIError m otherwise; either way
the raised error carries m.  The status hypothesis restricts to
responses that reach the decode step (not 401, not raise_for_status). -/
theorem matomo_c7_auth_classification (fields : Dict) (m : String) (status : Nat)
    (hs : status < 400)
    (hres : alget fields "result" = some (.str "error"))
    (hmsg : alget fields "message" = some (.str m)) :
    requestOutcome (.response status (.json (.obj fields))) =
      .fail (if containsLower m "token" || containsLower m "auth"
          || containsLower m "access" then .auth m else .api m) := by
  have h401 : ¬ status = 401 := by omega
  have h400 : ¬ 400 ≤ status := by omega
  simp only [requestOutcome, h401, h400, if_false, hres, hmsg]
  simp [classifyApiError]

def fieldsAuthDemo : Dict :=
  [("result", .str "error"), ("message", .str "Invalid token_auth")]

def fieldsAppDemo : Dict :=
  [("result", .str "error"), ("message", .str "Unknown parameter")]

theorem matomo_c7_auth_classification_witness :
    requestOutcome (.response 200 (.json (.obj fieldsAuthDemo)))
      = .fail (.auth "Invalid token_auth")
    ∧ requestOutcome (.response 200 (.json (.obj fieldsAppDemo)))
      = .fail (.api "Unknown parameter") := by
  have h1 := matomo_c7_auth_classification fieldsAuthDemo "Invalid token_auth" 200
    (by decide) rfl rfl
  have h2 := matomo_c7_auth_classification fieldsAppDemo "Unknown parameter" 200
    (by decide) rfl rfl
  rw [show (containsLower "Invalid token_auth" "token"
      || containsLower "Invalid token_auth" "auth"
      || containsLower "Invalid token_auth" "access") = true from by decide] at h1
  rw [show (containsLower "Unknown parameter" "token"
      || containsLower "Unknown parameter" "auth"
      || containsLower "Unknown parameter" "access") = false from by decide] at h2
  exact ⟨by simpa using h1, by simpa using h2⟩

/-- C9 counterexample: the code has no TransportError kind distinct
from ApplicationError.  A pure transport failure (HTTP 500) and a
pure application-level error payload both raise the SAME exception
class, plain MatomoAPIError (MatomoError.api, isAuth = false for
both): the claimed kind distinction does not exist. -/
theorem matomo_c9_transport_kind_counterexample :
    requestOutcome (.response 500 (.json (.obj [])))
      = .fail (.api (statusErrText 500))
    ∧ requestOutcome (.response 200 (.json (.obj fieldsAppDemo)))
      = .fail (.api "Unknown parameter")
    ∧ (MatomoError.api (statusErrText 500)).isAuth
        = (MatomoError.api "Unknown parameter").isAuth := by
  exact ⟨rfl, rfl, rfl⟩

/-- C9 as amended: the Matomo exception hierarchy of the client has
exactly TWO classes, MatomoAuthError and plain MatomoAPIError — not
three — so every Matomo-classified failure is one of those two.  An
HTTP response with a non-2xx status other than 401 fails with plain
MatomoAPIError — the same exception class as application errors,
distinguishable only by message text, not by kind — and so does any
aiohttp client error (connection-level failure).  Not every failing
call raises a Matomo error at all, however: expiry of the 30-second
total timeout raises asyncio.TimeoutError, which is not an
aiohttp.ClientError and escapes _request unwrapped, and an error
payload whose "message" value is not a string (e.g. null) escapes as
AttributeError. -/
theorem matomo_c9_two_error_kinds (status : Nat) (body : Body) (m : String)
    (h1 : 400 ≤ status) (h2 : status ≠ 401) :
    requestOutcome (.response status body) = .fail (.api (statusErrText status))
    ∧ requestOutcome (.clientError m)
        = .fail (.api ("Error communicating with Matomo: " ++ m))
    ∧ (∀ (o : HttpOutcome) (e : MatomoError), requestOutcome o = .fail e →
        (∃ s, e = .auth s) ∨ ∃ s, e = .api s)
    ∧ requestOutcome .timeout = .pyexn "asyncio.TimeoutError"
    ∧ requestOutcome (.response 200 (.json (.obj
        [("result", .str "error"), ("message", .null)])))
        = .pyexn "AttributeError: lower" := by
  refine ⟨?_, rfl, ?_, rfl, rfl⟩
  · simp only [requestOutcome, h2, if_false, if_pos h1]
  · intro o e _
    cases e with
    | auth s => exact Or.inl ⟨s, rfl⟩
    | api s => exact Or.inr ⟨s, rfl⟩

theorem matomo_c9_two_error_kinds_witness :
    requestOutcome (.response 503 .html) = .fail (.api (statusErrText 503))
    ∧ requestOutcome (.clientError "Cannot connect to host")
        = .fail (.api ("Error communicating with Matomo: " ++ "Cannot connect to host"))
    ∧ requestOutcome .timeout = .pyexn "asyncio.TimeoutError"
    ∧ requestOutcome (.response 200 (.json (.obj
        [("result", .str "error"), ("message", .null)])))
        = .pyexn "AttributeError: lower" :=
  ⟨(matomo_c9_two_error_kinds 503 .html "Cannot connect to host"
      (by decide) (by decide)).1,
   (matomo_c9_two_error_kinds 503 .html "Cannot connect to host"
      (by decide) (by decide)).2.1,
   (matomo_c9_two_error_kinds 503 .html "Cannot connect to host"
      (by decide) (by decide)).2.2.2.1,
   (matomo_c9_two_error_kinds 503 .html "Cannot connect to host"
      (by decide) (by decide)).2.2.2.2⟩

/-- The snapshot exhibiting the C6 counterexample: the day period of
the site partition holds the non-numeric string value "x" under key
"k" (exactly what the pipeline stores when a summary response maps
"k" to a string the int() builtin rejects). -/
def snapStr : Snapshot :=
  { site := [("day", [("k", .str "x")])], live := .obj [], aggregate := [] }

/-- C6 counterexample: the site-period selector is NOT total.  In
snapStr the path site["day"]["k"] resolves to the present value "x",
yet _site_value("day","k") raises (int("x") raises ValueError):
the selector outcome is the exception marker none — neither a
coerced integer nor "absent" — refuting "it never throws". -/
theorem matomo_c6_selector_throws_counterexample :
    alget ((alget snapStr.site "day").getD []) "k" = some (.str "x")
    ∧ siteValue "day" "k" snapStr = none :=
  ⟨rfl, rfl⟩

/-- C6 as amended: the site-period selector returns the value at
snapshot.site[period][key] coerced by truncation when the path
resolves to a numeric value, returns absent (not zero, not an error)
when the period partition or the key is missing, but RAISES when
the path resolves to a present non-null value that int() cannot
coerce (e.g. a non-numeric string); the live selector behaves the
same way on a mapping-shaped live partition, and the aggregate
selector never throws (its stored values are already ints). -/
theorem matomo_c6_selector_behaviour (snap : Snapshot) (p k : String) :
    (alget ((alget snap.site p).getD []) k = none → siteValue p k snap = some none)
    ∧ (∀ q : Rat, alget ((alget snap.site p).getD []) k = some (.num q) →
        siteValue p k snap = some (some (ratTrunc q)))
    ∧ (∀ v : Json, alget ((alget snap.site p).getD []) k = some v →
        v ≠ .null → pyInt v = none → siteValue p k snap = none)
    ∧ (∀ fields : Dict, snap.live = .obj fields → alget fields k = none →
        liveValue k snap = some none)
    ∧ (∀ (fields : Dict) (q : Rat), snap.live = .obj fields →
        alget fields k = some (.num q) →
        liveValue k snap = some (some (ratTrunc q)))
    ∧ aggValue p k snap ≠ none := by
  refine ⟨?_, ?_, ?_, ?_, ?_, ?_⟩
  · intro h
    simp [siteValue, h]
  · intro q h
    simp [siteValue, h, pyInt]
  · intro v h hnull hcoerce
    unfold siteValue
    rw [h]
    cases v <;> simp_all [pyInt]
  · intro fields hl h
    simp [liveValue, hl, h]
  · intro fields q hl h
    simp [liveValue, hl, h, pyInt]
  · unfold aggValue
    cases h : alget ((alget snap.aggregate p).getD []) k <;> simp

/-- 7/2: a non-integer rational demonstrating truncation. -/
def qSevenHalves : Rat := { num := 7, den := 2 }

def snapNum : Snapshot :=
  { site := [("day", [("k", .num qSevenHalves)])]
    live := .obj []
    aggregate := [("day", [("m", 8)])] }

theorem matomo_c6_selector_behaviour_witness :
    siteValue "day" "k" snapNum = some (some 3)
    ∧ aggValue "day" "m" snapNum ≠ none := by
  constructor
  · have h := (matomo_c6_selector_behaviour snapNum "day" "k").2.1 qSevenHalves rfl
    rw [h, show ratTrunc qSevenHalves = 3 from by decide]
  · exact (matomo_c6_selector_behaviour snapNum "day" "m").2.2.2.2.2

/-- A site-fetch error is raised unchanged out of the period loop:
if the first error among the six sequential per-period _request
results is e, the whole cycle body evaluates to that error. -/
theorem runCycle_error_of_firstError (env : Env) (b : Bool) (e : MatomoError)
    (h : firstError (siteCalls env) = some e) :
    runCycle env b = .error e := by
  unfold siteCalls at h
  unfold runCycle get_visit_summary get_actions
  cases h1 : env.visitSummary "day" with
  | error e1 =>
    rw [h1] at h
    simp only [firstError, Option.some.injEq] at h
    subst h
    rfl
  | ok v1 =>
    rw [h1] at h
    simp only [firstError] at h
    cases h2 : env.actions "day" with
    | error e2 =>
      rw [h2] at h
      simp only [firstError, Option.some.injEq] at h
      subst h
      rfl
    | ok v2 =>
      rw [h2] at h
      simp only [firstError] at h
      cases h3 : env.visitSummary "week" with
      | error e3 =>
        rw [h3] at h
        simp only [firstError, Option.some.injEq] at h
        subst h
        rfl
      | ok v3 =>
        rw [h3] at h
        simp only [firstError] at h
        cases h4 : env.actions "week" with
        | error e4 =>
          rw [h4] at h
          simp only [firstError, Option.some.injEq] at h
          subst h
          rfl
        | ok v4 =>
          rw [h4] at h
          simp only [firstError] at h
          cases h5 : env.visitSummary "month" with
          | error e5 =>
            rw [h5] at h
            simp only [firstError, Option.some.injEq] at h
            subst h
            rfl
          | ok v5 =>
            rw [h5] at h
            simp only [firstError] at h
            cases h6 : env.actions "month" with
            | error e6 =>
              rw [h6] at h
              simp only [firstError, Option.some.injEq] at h
              subst h
              rfl
            | ok v6 =>
              rw [h6] at h
              simp only [firstError] at h
              exact absurd h (by simp)

/-- C1: if any of the six load-bearing per-period fetches raises —
in particular an AuthError or a TransportError, both being
MatomoError values — the first such error e aborts the cycle: no
snapshot is produced (the result is Except.error, never .ok), and
the refresh is reported failed as a single UpdateFailed wrapping e,
whose cause field is exactly the original error. -/
theorem matomo_c1_load_bearing_failure_aborts (env : Env) (b : Bool)
    (e : MatomoError) (h : firstError (siteCalls env) = some e) :
    updateData env b = .error (wrapFail e)
    ∧ (wrapFail e).cause = e := by
  refine ⟨?_, by cases e <;> rfl⟩
  unfold updateData
  rw [runCycle_error_of_firstError env b e h]

def envC1 : Env :=
  { visitSummary := fun p =>
      if p = "day" then .error (.auth "Invalid token_auth") else .ok (.obj [])
    actions := fun _ => .ok (.obj [])
    liveCounters := .ok (.arr [])
    allVisits := fun _ => .ok (.obj [])
    allActions := fun _ => .ok (.obj []) }

theorem matomo_c1_load_bearing_failure_aborts_witness :
    updateData envC1 true = .error (wrapFail (.auth "Invalid token_auth"))
    ∧ (wrapFail (.auth "Invalid token_auth")).cause = .auth "Invalid token_auth" :=
  matomo_c1_load_bearing_failure_aborts envC1 true (.auth "Invalid token_auth")
    (by decide)

/-- C2: when all six per-period summary fetches succeed and the
live-counters fetch raises a plain MatomoAPIError (an application
error), the cycle still succeeds: the snapshot is produced, its site
partition holds the merged mapping for each of day, week and month,
and its live partition is the empty mapping. -/
theorem matomo_c2_live_failure_isolated (env : Env) (b : Bool)
    (vd ad vw aw vm am : Json) (m : String)
    (h1 : env.visitSummary "day" = .ok vd) (h2 : env.actions "day" = .ok ad)
    (h3 : env.visitSummary "week" = .ok vw) (h4 : env.actions "week" = .ok aw)
    (h5 : env.visitSummary "month" = .ok vm) (h6 : env.actions "month" = .ok am)
    (hl : env.liveCounters = .error (.api m)) :
    updateData env b = .ok
      { site := [("day", mergedFor (normalizeSummary vd) (normalizeSummary ad)),
                 ("week", mergedFor (normalizeSummary vw) (normalizeSummary aw)),
                 ("month", mergedFor (normalizeSummary vm) (normalizeSummary am))]
        live := .obj []
        aggregate := aggOf b env } := by
  unfold updateData runCycle get_visit_summary get_actions
  rw [h1, h2, h3, h4, h5, h6, hl]
  rfl

def envC2 : Env :=
  { visitSummary := fun _ => .ok (.obj [])
    actions := fun _ => .ok (.obj [])
    liveCounters := .error (.api "server error")
    allVisits := fun _ => .ok (.obj [])
    allActions := fun _ => .ok (.obj []) }

theorem matomo_c2_live_failure_isolated_witness :
    updateData envC2 false = .ok
      { site := [("day", mergedFor (normalizeSummary (.obj [])) (normalizeSummary (.obj []))),
                 ("week", mergedFor (normalizeSummary (.obj [])) (normalizeSummary (.obj []))),
                 ("month", mergedFor (normalizeSummary (.obj [])) (normalizeSummary (.obj [])))]
        live := .obj []
        aggregate := aggOf false envC2 } :=
  matomo_c2_live_failure_isolated envC2 false (.obj []) (.obj []) (.obj [])
    (.obj []) (.obj []) (.obj []) "server error" rfl rfl rfl rfl rfl rfl rfl

/-- C10: the live fetch runs inside except MatomoAPIError, and
MatomoAuthError is a subclass of MatomoAPIError, so an AUTH error
from the live-counters fetch is swallowed exactly like an
application error: the cycle is still reported successful (an .ok
snapshot, never a failed refresh) and the live partition degrades to
the empty mapping. -/
theorem matomo_c10_live_auth_error_swallowed (env : Env) (b : Bool)
    (vd ad vw aw vm am : Json) (m : String)
    (h1 : env.visitSummary "day" = .ok vd) (h2 : env.actions "day" = .ok ad)
    (h3 : env.visitSummary "week" = .ok vw) (h4 : env.actions "week" = .ok aw)
    (h5 : env.visitSummary "month" = .ok vm) (h6 : env.actions "month" = .ok am)
    (hl : env.liveCounters = .error (.auth m)) :
    updateData env b = .ok
      { site := [("day", mergedFor (normalizeSummary vd) (normalizeSummary ad)),
                 ("week", mergedFor (normalizeSummary vw) (normalizeSummary aw)),
                 ("month", mergedFor (normalizeSummary vm) (normalizeSummary am))]
        live := .obj []
        aggregate := aggOf b env } := by
  unfold updateData runCycle get_visit_summary get_actions
  rw [h1, h2, h3, h4, h5, h6, hl]
  rfl

def envC10 : Env :=
  { visitSummary := fun _ => .ok (.obj [])
    actions := fun _ => .ok (.obj [])
    liveCounters := .error (.auth "Invalid token_auth")
    allVisits := fun _ => .ok (.obj [])
    allActions := fun _ => .ok (.obj []) }

theorem matomo_c10_live_auth_error_swallowed_witness :
    updateData envC10 false = .ok
      { site := [("day", mergedFor (normalizeSummary (.obj [])) (normalizeSummary (.obj []))),
                 ("week", mergedFor (normalizeSummary (.obj [])) (normalizeSummary (.obj []))),
                 ("month", mergedFor (normalizeSummary (.obj [])) (normalizeSummary (.obj [])))]
        live := .obj []
        aggregate := aggOf false envC10 } :=
  matomo_c10_live_auth_error_swallowed envC10 false (.obj []) (.obj []) (.obj [])
    (.obj []) (.obj []) (.obj []) "Invalid token_auth" rfl rfl rfl rfl rfl rfl rfl

/-- Structure of every successful cycle result: the snapshot the
body builds — a site partition with exactly the three period
entries, the live partition from the guarded live fetch, and the
aggregate partition from the guarded aggregate fetch. -/
theorem runCycle_ok_shape (env : Env) (b : Bool) (snap : Snapshot)
    (h : runCycle env b = .ok snap) :
    ∃ vd ad vw aw vm am : Json,
      snap = { site := [("day", mergedFor vd ad),
                        ("week", mergedFor vw aw),
                        ("month", mergedFor vm am)]
               live := liveOf env.liveCounters
               aggregate := aggOf b env } := by
  unfold runCycle at h
  cases hv1 : get_visit_summary env "day" with
  | error e => rw [hv1] at h; simp at h
  | ok vd =>
    rw [hv1] at h
    cases hv2 : get_actions env "day" with
    | error e => rw [hv2] at h; simp at h
    | ok ad =>
      rw [hv2] at h
      cases hv3 : get_visit_summary env "week" with
      | error e => rw [hv3] at h; simp at h
      | ok vw =>
        rw [hv3] at h
        cases hv4 : get_actions env "week" with
        | error e => rw [hv4] at h; simp at h
        | ok aw =>
          rw [hv4] at h
          cases hv5 : get_visit_summary env "month" with
          | error e => rw [hv5] at h; simp at h
          | ok vm =>
            rw [hv5] at h
            cases hv6 : get_actions env "month" with
            | error e => rw [hv6] at h; simp at h
            | ok am =>
              rw [hv6] at h
              simp only [Except.ok.injEq] at h
              exact ⟨vd, ad, vw, aw, vm, am, h.symm⟩

/-- C3: every snapshot returned by a successful refresh cycle is
fully formed.  All three partitions exist by construction of the
snapshot value; the site partition carries an entry for each of the
three periods; and when the live fetch or the aggregate fetch
failed, the corresponding partition is the empty mapping rather
than missing. -/
theorem matomo_c3_snapshot_fully_formed (env : Env) (b : Bool) (snap : Snapshot)
    (h : updateData env b = .ok snap) :
    (alget snap.site "day").isSome ∧ (alget snap.site "week").isSome
    ∧ (alget snap.site "month").isSome
    ∧ (∀ e, env.liveCounters = .error e → snap.live = .obj [])
    ∧ (∀ e, aggFetch env = .error e → snap.aggregate = []) := by
  have hr : runCycle env b = .ok snap := by
    unfold updateData at h
    cases hx : runCycle env b with
    | ok s => rw [hx] at h; simp only [Except.ok.injEq] at h; rw [← h]
    | error e => rw [hx] at h; simp at h
  obtain ⟨vd, ad, vw, aw, vm, am, hsnap⟩ := runCycle_ok_shape env b snap hr
  subst hsnap
  refine ⟨?_, ?_, ?_, ?_, ?_⟩
  · simp [alget]
  · simp [alget]
  · simp [alget]
  · intro e he
    simp [liveOf, he]
  · intro e he
    cases b <;> simp [aggOf, he]

def envC3 : Env :=
  { visitSummary := fun _ => .ok (.obj [])
    actions := fun _ => .ok (.obj [])
    liveCounters := .ok (.arr [])
    allVisits := fun _ => .ok (.obj [])
    allActions := fun _ => .ok (.obj []) }

def snapC3 : Snapshot :=
  { site := [("day", []), ("week", []), ("month", [])]
    live := .obj []
    aggregate := [] }

theorem matomo_c3_snapshot_fully_formed_witness :
    (alget snapC3.site "day").isSome ∧ (alget snapC3.site "week").isSome
    ∧ (alget snapC3.site "month").isSome :=
  ⟨(matomo_c3_snapshot_fully_formed envC3 false snapC3 rfl).1,
   (matomo_c3_snapshot_fully_formed envC3 false snapC3 rfl).2.1,
   (matomo_c3_snapshot_fully_formed envC3 false snapC3 rfl).2.2.1⟩
